import Mathlib

/-!
Shallow embedding of the gocsi CSI endpoint dispatcher: the plugin registry
(`Init` / `loadSharedObjects`), the in-memory listener/dialer bridge
(`pipeConn`), the provider factory (`New`), the RPC-forwarding facade
(`endpoint` methods) and the address parser (`ParseProtoAddr`), together with
proofs of the documented properties.

Go machine details are modelled as follows: fallible calls return a value
paired with an `Option GoError` (Go's `(T, error)` shape) or an
`Except GoError T`; the behavior of external libraries (grpc, plugin, csv,
net.Pipe) is passed in as explicit parameters or modelled by small state
machines; goroutine interleaving around the unbuffered channel inside
`pipeConn` is modelled by an explicit queue of handed-off stream halves plus a
selection argument, since a Go channel receive pairs with an arbitrary blocked
sender.
-/

namespace GoCSI

/-- The error values produced by the embedded code.  `eof` models `io.EOF`;
`remoteError` stands for an arbitrary error produced by an external
collaborator (a grpc dial, a remote method, an inner endpoint). -/
inductive GoError where
  | invalidEndpointProvider
  | invalidEndpointType (typeName : String)
  | invalidCSIEndpoint
  | pluginOpenFailed (path : String)
  | symbolLookupFailed (sym : String)
  | invalidEndpointsField (typeName : String)
  | nilEndpoints
  | csvParseError (msg : String)
  | eof
  | remoteError (msg : String)
deriving DecidableEq, Repr

/-! ## The in-memory duplex bridge (`pipeConn`)

`net.Pipe()` creates a connected pair of stream halves.  A half is identified
by the pipe's id and by which side of the pipe it is: `serverSide = true` is
the half `r` that `Dial` hands to the accept queue, `serverSide = false` is
the half `w` returned to the dialer. -/

structure Stream where
  pipeId : Nat
  serverSide : Bool
deriving DecidableEq, Repr

/-- The other half of the same `net.Pipe` pair. -/
def Stream.peer (s : Stream) : Stream := ⟨s.pipeId, !s.serverSide⟩

/-- The data plane of all `net.Pipe` pairs: the bytes queued for reading at a
given half.  `net.Pipe` is fully synchronous, but all the claims need is which
half reads the bytes written on the other. -/
abbrev PipeNet := Nat → Bool → List Nat

/-- A `Write` on half `s` makes the bytes readable on the peer half. -/
def PipeNet.write (net : PipeNet) (s : Stream) (data : List Nat) : PipeNet :=
  fun id side =>
    if id = s.pipeId ∧ side = !s.serverSide then net id side ++ data
    else net id side

/-- The bytes a `Read` on half `s` obtains. -/
def PipeNet.readable (net : PipeNet) (s : Stream) : List Nat :=
  net s.pipeId s.serverSide

structure pipeAddr where
  name : String
deriving DecidableEq, Repr

def pipeAddr.Network (_ : pipeAddr) : String := "modcsi"

def pipeAddr.String (a : pipeAddr) : String := a.name

/-- State of one `pipeConn`: `pending` is the queue of pipe ids whose server
half has been handed off by a dial goroutine and not yet accepted (the
unbuffered channel `chcn` together with its blocked senders); `nextId` names
the next `net.Pipe` pair; `closed` records `close(p.chcn)`; `sendPanicked`
records that some handoff goroutine performed a send on the closed channel,
which in Go is a runtime panic. -/
structure pipeConn where
  addr : pipeAddr
  pending : List Nat
  nextId : Nat
  closed : Bool
  sendPanicked : Bool
deriving DecidableEq, Repr

def newPipeConn (name : String) : pipeConn :=
  { addr := ⟨name⟩, pending := [], nextId := 0, closed := false, sendPanicked := false }

/-- `func (p *pipeConn) Dial(raddr string, timeout time.Duration)`:
`r, w := net.Pipe(); go func() { p.chcn <- r }(); return w, nil`.
Both arguments are unused by the Go body.  The spawned goroutine's send is
modelled by enqueueing the server half's pipe id; if the channel is already
closed that send panics instead of enqueueing. -/
def pipeConn.Dial (p : pipeConn) (raddr : String) (timeout : Nat) :
    pipeConn × Stream × Option GoError :=
  let _ := raddr
  let _ := timeout
  let id := p.nextId
  if p.closed then
    ({ p with nextId := id + 1, sendPanicked := true }, ⟨id, false⟩, none)
  else
    ({ p with nextId := id + 1, pending := p.pending ++ [id] }, ⟨id, false⟩, none)

/-- Outcome of one `Accept` call that returned: `conn s` is `(c, nil)`,
`eos` is the `(nil, nil)` end-of-stream result after the range loop exits. -/
inductive AcceptResult where
  | conn (s : Stream)
  | eos
deriving DecidableEq, Repr

/-- `func (p *pipeConn) Accept()`: `for c := range p.chcn { return c, nil };
return nil, nil`.  `none` means the call blocks (nothing queued and the
channel is open).  `sel` chooses which blocked sender the receive pairs with:
Go channels do not promise FIFO among blocked senders. -/
def pipeConn.Accept (p : pipeConn) (sel : Nat) : pipeConn × Option AcceptResult :=
  match p.pending with
  | [] => if p.closed then (p, some .eos) else (p, none)
  | x :: xs =>
    let l := x :: xs
    let i := sel % l.length
    let id := l.get ⟨i, Nat.mod_lt sel (Nat.succ_pos xs.length)⟩
    ({ p with pending := l.eraseIdx i }, some (.conn ⟨id, true⟩))

/-- `func (p *pipeConn) Close()`: `close(p.chcn); return nil`.  Closing the
channel makes any still-blocked handoff goroutine panic, so nothing queued at
close time can ever be received afterwards. -/
def pipeConn.Close (p : pipeConn) : pipeConn × Option GoError :=
  ({ p with closed := true, pending := [],
            sendPanicked := p.sendPanicked || !p.pending.isEmpty }, none)

def pipeConn.Addr (p : pipeConn) : pipeAddr := p.addr

/-- A sequence of `n` consecutive `Dial` calls, returning the final bridge
state and the stream halves handed back to the dialers in order. -/
def dialN (p : pipeConn) : Nat → pipeConn × List Stream
  | 0 => (p, [])
  | n + 1 =>
    let one := p.Dial "" 0
    let rest := dialN one.1 n
    (rest.1, one.2.1 :: rest.2)

/-- A sequence of `n` consecutive `Accept` calls with selections `sels`. -/
def acceptN (p : pipeConn) (sels : Nat → Nat) : Nat → pipeConn × List (Option AcceptResult)
  | 0 => (p, [])
  | n + 1 =>
    let one := p.Accept (sels 0)
    let rest := acceptN one.1 (fun k => sels (k + 1)) n
    (rest.1, one.2 :: rest.2)

/-- The pipe ids `s, s+1, ..., s+n-1` created by `n` dials starting at
next id `s`. -/
def idRange : Nat → Nat → List Nat
  | _, 0 => []
  | s, n + 1 => s :: idRange (s + 1) n

/-! ## The service facade (`endpoint`)

The plugin behind the facade is external to the dispatcher core: the claims
only look at the results its `Init`/`Shutdown` return, so it is modelled by
those results.  A `grpc.ClientConn` is an opaque handle produced by
`grpc.DialContext`; the grpc library is external, so the outcome of a dial is
a parameter `grpcDial` applied to the dial target `e.name`, and the behavior
of a generated client stub's remote method is a parameter applied to the
client and the request. -/

structure InnerEndpoint where
  initErr : Option GoError
  shutdownErr : Option GoError
deriving DecidableEq, Repr

structure GrpcClientConn where
  target : String
deriving DecidableEq, Repr

structure ControllerClient where
  cc : GrpcClientConn
deriving DecidableEq, Repr

structure IdentityClient where
  cc : GrpcClientConn
deriving DecidableEq, Repr

structure NodeClient where
  cc : GrpcClientConn
deriving DecidableEq, Repr

def csi.NewControllerClient (c : GrpcClientConn) : ControllerClient := ⟨c⟩

def csi.NewIdentityClient (c : GrpcClientConn) : IdentityClient := ⟨c⟩

def csi.NewNodeClient (c : GrpcClientConn) : NodeClient := ⟨c⟩

/-- The `(*Resp, error)` pair a grpc call returns. -/
abbrev RpcResult (Resp : Type) := Option Resp × Option GoError

/-- The behavior of one remote method of a client stub: external to the
dispatcher, hence a parameter type. -/
abbrev Remote (Client Req Resp : Type) := Client → Req → RpcResult Resp

/-- `type endpoint struct`: the facade bound to one plugin `endp` and one
bridge `conn`. -/
structure endpoint where
  name : String
  endp : InnerEndpoint
  conn : pipeConn
deriving DecidableEq, Repr

/-- `e.dial`: `grpc.DialContext(ctx, e.name, WithInsecure, WithDialer(e.conn.Dial))`.
The grpc library's outcome for this call is `grpcDial e.name`. -/
def endpoint.dial (e : endpoint) (grpcDial : String → Except GoError GrpcClientConn) :
    Except GoError GrpcClientConn :=
  grpcDial e.name

def endpoint.dialController (e : endpoint)
    (grpcDial : String → Except GoError GrpcClientConn) :
    Except GoError ControllerClient :=
  match e.dial grpcDial with
  | .error err => .error err
  | .ok c => .ok (csi.NewControllerClient c)

def endpoint.dialIdentity (e : endpoint)
    (grpcDial : String → Except GoError GrpcClientConn) :
    Except GoError IdentityClient :=
  match e.dial grpcDial with
  | .error err => .error err
  | .ok c => .ok (csi.NewIdentityClient c)

def endpoint.dialNode (e : endpoint)
    (grpcDial : String → Except GoError GrpcClientConn) :
    Except GoError NodeClient :=
  match e.dial grpcDial with
  | .error err => .error err
  | .ok c => .ok (csi.NewNodeClient c)

/-- `func (e *endpoint) Init(ctx)`: `return e.endp.Init(ctx)`. -/
def endpoint.Init (e : endpoint) : Option GoError := e.endp.initErr

/-- Observable steps of `endpoint.Shutdown`, in execution order. -/
inductive ShutdownEvent where
  | innerShutdown (err : Option GoError)
  | bridgeClose
deriving DecidableEq, Repr

/-- `func (e *endpoint) Shutdown(ctx)`:
`e.endp.Shutdown(ctx); e.conn.Close(); return nil`.  The inner endpoint's
error is not bound to anything; the trace records the two calls in order. -/
def endpoint.Shutdown (e : endpoint) : List ShutdownEvent × endpoint × Option GoError :=
  let innerErr := e.endp.shutdownErr
  let conn2 := (e.conn.Close).1
  ([.innerShutdown innerErr, .bridgeClose], { e with conn := conn2 }, none)

/-! The per-method forwarding bodies, one per RPC method of the three service
groups, each translated from its own Go function body (they are textually
near-identical in the source as well). -/

def endpoint.CreateVolume {Req Resp : Type} (e : endpoint)
    (grpcDial : String → Except GoError GrpcClientConn)
    (remote : Remote ControllerClient Req Resp) (req : Req) : RpcResult Resp :=
  match e.dialController grpcDial with
  | .error err => (none, some err)
  | .ok c => remote c req

def endpoint.DeleteVolume {Req Resp : Type} (e : endpoint)
    (grpcDial : String → Except GoError GrpcClientConn)
    (remote : Remote ControllerClient Req Resp) (req : Req) : RpcResult Resp :=
  match e.dialController grpcDial with
  | .error err => (none, some err)
  | .ok c => remote c req

def endpoint.ControllerPublishVolume {Req Resp : Type} (e : endpoint)
    (grpcDial : String → Except GoError GrpcClientConn)
    (remote : Remote ControllerClient Req Resp) (req : Req) : RpcResult Resp :=
  match e.dialController grpcDial with
  | .error err => (none, some err)
  | .ok c => remote c req

def endpoint.ControllerUnpublishVolume {Req Resp : Type} (e : endpoint)
    (grpcDial : String → Except GoError GrpcClientConn)
    (remote : Remote ControllerClient Req Resp) (req : Req) : RpcResult Resp :=
  match e.dialController grpcDial with
  | .error err => (none, some err)
  | .ok c => remote c req

def endpoint.ValidateVolumeCapabilities {Req Resp : Type} (e : endpoint)
    (grpcDial : String → Except GoError GrpcClientConn)
    (remote : Remote ControllerClient Req Resp) (req : Req) : RpcResult Resp :=
  match e.dialController grpcDial with
  | .error err => (none, some err)
  | .ok c => remote c req

def endpoint.ListVolumes {Req Resp : Type} (e : endpoint)
    (grpcDial : String → Except GoError GrpcClientConn)
    (remote : Remote ControllerClient Req Resp) (req : Req) : RpcResult Resp :=
  match e.dialController grpcDial with
  | .error err => (none, some err)
  | .ok c => remote c req

def endpoint.GetCapacity {Req Resp : Type} (e : endpoint)
    (grpcDial : String → Except GoError GrpcClientConn)
    (remote : Remote ControllerClient Req Resp) (req : Req) : RpcResult Resp :=
  match e.dialController grpcDial with
  | .error err => (none, some err)
  | .ok c => remote c req

def endpoint.ControllerGetCapabilities {Req Resp : Type} (e : endpoint)
    (grpcDial : String → Except GoError GrpcClientConn)
    (remote : Remote ControllerClient Req Resp) (req : Req) : RpcResult Resp :=
  match e.dialController grpcDial with
  | .error err => (none, some err)
  | .ok c => remote c req

def endpoint.GetSupportedVersions {Req Resp : Type} (e : endpoint)
    (grpcDial : String → Except GoError GrpcClientConn)
    (remote : Remote IdentityClient Req Resp) (req : Req) : RpcResult Resp :=
  match e.dialIdentity grpcDial with
  | .error err => (none, some err)
  | .ok c => remote c req

def endpoint.GetPluginInfo {Req Resp : Type} (e : endpoint)
    (grpcDial : String → Except GoError GrpcClientConn)
    (remote : Remote IdentityClient Req Resp) (req : Req) : RpcResult Resp :=
  match e.dialIdentity grpcDial with
  | .error err => (none, some err)
  | .ok c => remote c req

def endpoint.NodePublishVolume {Req Resp : Type} (e : endpoint)
    (grpcDial : String → Except GoError GrpcClientConn)
    (remote : Remote NodeClient Req Resp) (req : Req) : RpcResult Resp :=
  match e.dialNode grpcDial with
  | .error err => (none, some err)
  | .ok c => remote c req

def endpoint.NodeUnpublishVolume {Req Resp : Type} (e : endpoint)
    (grpcDial : String → Except GoError GrpcClientConn)
    (remote : Remote NodeClient Req Resp) (req : Req) : RpcResult Resp :=
  match e.dialNode grpcDial with
  | .error err => (none, some err)
  | .ok c => remote c req

def endpoint.GetNodeID {Req Resp : Type} (e : endpoint)
    (grpcDial : String → Except GoError GrpcClientConn)
    (remote : Remote NodeClient Req Resp) (req : Req) : RpcResult Resp :=
  match e.dialNode grpcDial with
  | .error err => (none, some err)
  | .ok c => remote c req

def endpoint.ProbeNode {Req Resp : Type} (e : endpoint)
    (grpcDial : String → Except GoError GrpcClientConn)
    (remote : Remote NodeClient Req Resp) (req : Req) : RpcResult Resp :=
  match e.dialNode grpcDial with
  | .error err => (none, some err)
  | .ok c => remote c req

def endpoint.NodeGetCapabilities {Req Resp : Type} (e : endpoint)
    (grpcDial : String → Except GoError GrpcClientConn)
    (remote : Remote NodeClient Req Resp) (req : Req) : RpcResult Resp :=
  match e.dialNode grpcDial with
  | .error err => (none, some err)
  | .ok c => remote c req

/-! ## The registry and the factory (`endpointCtors`, `New`) -/

/-- What a registered constructor produces when invoked: either a value
satisfying the `Endpoint` interface, or some other concrete type (named for
the diagnostic). -/
inductive ProviderVal where
  | endp (e : InnerEndpoint)
  | other (typeName : String)
deriving DecidableEq, Repr

/-- `endpointCtors`, presented in some iteration order; Go map iteration
order is arbitrary, keys are unique as exact strings. -/
abbrev Registry := List (String × ProviderVal)

/-- `strings.EqualFold`, on the ASCII names involved equal to comparison of
the lowercased character sequences. -/
def eqFold (a b : String) : Bool :=
  a.data.map Char.toLower == b.data.map Char.toLower

/-- The lookup-and-construct part of `New` (the body after the `Init` call):
iterate `endpointCtors`, on the first key such that
`strings.EqualFold(k, name)` invoke the constructor, type-assert the result
to `Endpoint` and wrap it with a fresh bridge named `k`; if no key matches
return `errInvalidEndpointProvider`. -/
def newService (ctors : Registry) (name : String) : Except GoError endpoint :=
  match ctors.find? (fun kv => eqFold kv.1 name) with
  | some (k, .endp e) => .ok { name := k, endp := e, conn := newPipeConn k }
  | some (_, .other t) => .error (.invalidEndpointType t)
  | none => .error .invalidEndpointProvider

/-! ## Plugin discovery (`loadSharedObjects`, `Init`) -/

/-- The value of a plugin's exported `Endpoints` symbol after the
`epsSym.(*map[string]func() interface\x7b\x7d)` assertion: the map entries in
iteration order, a nil map pointer, or a value of the wrong type. -/
inductive EndpointsSym where
  | good (entries : List (String × ProviderVal))
  | nilMap
  | wrongType (typeName : String)

/-- A loaded plugin object; `p.Lookup("Endpoints")` is external, so its
outcome is a field. -/
structure PluginObj where
  lookupEndpoints : Except GoError EndpointsSym

/-- The external collaborators of `loadSharedObjects`: the `(record, error)`
returned by the csv reader's `Read` on the `CSI_PLUGINS` value (for an empty
or unset variable Go's csv reader returns `(nil, io.EOF)`), and `plugin.Open`. -/
structure PluginEnv where
  readRecord : List String × Option GoError
  openPlugin : String → Except GoError PluginObj

/-- `endpointCtors[k] = v`: Go map assignment, overwriting the entry with the
same exact key if present. -/
def regInsert (reg : Registry) (k : String) (v : ProviderVal) : Registry :=
  reg.filter (fun kv => kv.1 != k) ++ [(k, v)]

/-- The `for _, so := range sos` loop body of `loadSharedObjects`: open each
plugin, look up `Endpoints`, validate it, and register every entry;
the first failure aborts the loop but keeps earlier registrations. -/
def loadPlugins (env : PluginEnv) (reg : Registry) : List String → Registry × Option GoError
  | [] => (reg, none)
  | so :: rest =>
    match env.openPlugin so with
    | .error e => (reg, some e)
    | .ok p =>
      match p.lookupEndpoints with
      | .error e => (reg, some e)
      | .ok (.wrongType t) => (reg, some (.invalidEndpointsField t))
      | .ok .nilMap => (reg, some .nilEndpoints)
      | .ok (.good entries) =>
        loadPlugins env (entries.foldl (fun r kv => regInsert r kv.1 kv.2) reg) rest

/-- `loadSharedObjects`: read the record of plugin paths; a read error other
than `io.EOF` is returned; an empty record is a trivial success; otherwise
load the listed plugins. -/
def loadSharedObjects (env : PluginEnv) (reg : Registry) : Registry × Option GoError :=
  let sos := env.readRecord.1
  let errv := env.readRecord.2
  if errv ≠ none ∧ errv ≠ some .eof then (reg, errv)
  else if sos.length = 0 then (reg, none)
  else loadPlugins env reg sos

/-- The package-level state: whether `initOnce` has fired, and
`endpointCtors`. -/
structure GoState where
  initDone : Bool
  endpointCtors : Registry

/-- `func Init(ctx) error`: `var err error; initOnce.Do(func() {
err = loadSharedObjects(ctx) }); return err`.  The local `err` is assigned
only when the once-body actually runs; on every later call the body is
skipped and the zero-valued local is returned. -/
def Init (env : PluginEnv) (s : GoState) : GoState × Option GoError :=
  if s.initDone then (s, none)
  else
    let r := loadSharedObjects env s.endpointCtors
    ({ initDone := true, endpointCtors := r.1 }, r.2)

/-- `func New(ctx, name)`: ensure `Init` has run (propagating its error),
then resolve the provider. -/
def New (env : PluginEnv) (s : GoState) (name : String) :
    GoState × Except GoError endpoint :=
  let r := Init env s
  match r.2 with
  | some e => (r.1, .error e)
  | none => (r.1, newService r.1.endpointCtors name)

/-! ## The address parser (`ParseProtoAddr`)

The pattern is
`(?i)^((?:(?:tcp|udp|ip)[46]?)|(?:unix(?:gram|packet)?))://(.+)$`.
The scheme alternation denotes the twelve lowercase tokens below up to case,
and no string containing a colon, so a successful match decomposes the input
at its first occurrence of `://`; in Go's regexp syntax `.` matches any
character except a newline and `$` (without the `m` flag) anchors at the end
of the text, so the `(.+)` group is any nonempty newline-free suffix. -/

def schemeTokens : List (List Char) :=
  ["tcp".data, "tcp4".data, "tcp6".data,
   "udp".data, "udp4".data, "udp6".data,
   "ip".data, "ip4".data, "ip6".data,
   "unix".data, "unixgram".data, "unixpacket".data]

/-- Split a character list at its first occurrence of `://`. -/
def splitScheme : List Char → Option (List Char × List Char)
  | [] => none
  | c :: cs =>
    if c = ':' ∧ cs.take 2 = ['/', '/'] then some ([], cs.drop 2)
    else (splitScheme cs).map (fun pr => (c :: pr.1, pr.2))

def lowerStr (s : List Char) : List Char := s.map Char.toLower

/-- `addrRX.FindStringSubmatch`, returning the two capture groups
(scheme as written, address) on a match. -/
def addrRXMatch (s : List Char) : Option (List Char × List Char) :=
  match splitScheme s with
  | none => none
  | some (scheme, rest) =>
    if schemeTokens.contains (lowerStr scheme) = true ∧ rest ≠ [] ∧
        rest.contains '\n' = false
    then some (scheme, rest) else none

/-- `func ParseProtoAddr(protoAddr string) (string, string, error)`. -/
def ParseProtoAddr (protoAddr : String) : Except GoError (String × String) :=
  match addrRXMatch protoAddr.data with
  | none => .error .invalidCSIEndpoint
  | some (proto, addr) => .ok (⟨proto⟩, ⟨addr⟩)

/-! ## Theorems -/

/-- C10: on a bridge that is not closed, `pipeConn.Dial` ignores both its
arguments, always succeeds, and returns the dialer half of a freshly
constructed pipe (an id no queued half uses) with a nil error; the timeout
argument bounds nothing. -/
theorem Dial_ignores_args_and_succeeds (p : pipeConn) (raddr raddr' : String)
    (t t' : Nat) (hc : p.closed = false) (hw : ∀ i ∈ p.pending, i < p.nextId) :
    p.Dial raddr t = p.Dial raddr' t' ∧
    (p.Dial raddr t).2.2 = none ∧
    (p.Dial raddr t).2.1 = ⟨p.nextId, false⟩ ∧
    p.nextId ∉ p.pending ∧
    (p.Dial raddr t).1.pending = p.pending ++ [p.nextId] ∧
    (p.Dial raddr t).1.nextId = p.nextId + 1 := by
  have hnot : p.nextId ∉ p.pending := fun hmem => Nat.lt_irrefl _ (hw _ hmem)
  simp [pipeConn.Dial, hc, hnot]

/-- Witness for C10 at a fresh bridge. -/
theorem Dial_ignores_args_and_succeeds_witness :
    (newPipeConn "mock").Dial "a" 1 = (newPipeConn "mock").Dial "b" 2 ∧
    ((newPipeConn "mock").Dial "a" 1).2.2 = none ∧
    ((newPipeConn "mock").Dial "a" 1).2.1 = ⟨(newPipeConn "mock").nextId, false⟩ ∧
    (newPipeConn "mock").nextId ∉ (newPipeConn "mock").pending ∧
    ((newPipeConn "mock").Dial "a" 1).1.pending =
      (newPipeConn "mock").pending ++ [(newPipeConn "mock").nextId] ∧
    ((newPipeConn "mock").Dial "a" 1).1.nextId = (newPipeConn "mock").nextId + 1 :=
  Dial_ignores_args_and_succeeds (newPipeConn "mock") "a" "b" 1 2 rfl (by decide)

/-- C5 counterexample: a `Dial` on the closed bridge does not return a
`TransportClosed` error; it returns a stream half and a nil error. -/
theorem Dial_after_close_counterexample :
    ((newPipeConn "mock").Close).1.closed = true ∧
    (((newPipeConn "mock").Close).1.Dial "mock" 5).2.2 = none ∧
    (((newPipeConn "mock").Close).1.Dial "mock" 5).2.1 = ⟨0, false⟩ := by decide

/-- C5 (amended): after `Close`, `Dial` still returns a fresh dialer half with
a nil error; the asynchronous handoff goroutine performs a send on the closed
channel, a runtime panic, and nothing is added to the accept queue, so the
returned stream is never matched by an accept. -/
theorem Dial_after_close (p : pipeConn) (raddr : String) (t : Nat)
    (hc : p.closed = true) :
    p.Dial raddr t =
      ({ p with nextId := p.nextId + 1, sendPanicked := true },
        ⟨p.nextId, false⟩, none) := by
  simp [pipeConn.Dial, hc]

/-- Witness for the amended C5 at a freshly closed bridge. -/
theorem Dial_after_close_witness :
    ((newPipeConn "x").Close).1.Dial "y" 3 =
      ({ ((newPipeConn "x").Close).1 with
          nextId := ((newPipeConn "x").Close).1.nextId + 1, sendPanicked := true },
        ⟨((newPipeConn "x").Close).1.nextId, false⟩, none) :=
  Dial_after_close ((newPipeConn "x").Close).1 "y" 3 rfl

/-- C6: once the bridge is closed, every pending or future `Accept` returns
immediately with the clean end-of-stream signal — no stream value and no
error, never a block: `Close` empties the handoff queue (the blocked senders
die), and the resulting state answers `eos` to every selection, unchanged. -/
theorem Accept_after_Close (p : pipeConn) (sel : Nat) :
    (p.Close).1.Accept sel = ((p.Close).1, some .eos) ∧
    (p.Close).1.pending = [] ∧
    (p.Close).1.closed = true := by
  simp [pipeConn.Close, pipeConn.Accept]

/-- C4 counterexample: with an inner endpoint whose `Shutdown` fails, the
facade's `Shutdown` still returns nil; the inner error is discarded. -/
theorem Shutdown_swallows_error_counterexample :
    (({ name := "mock",
        endp := { initErr := none, shutdownErr := some (.remoteError "boom") },
        conn := newPipeConn "mock" } : endpoint).endp.shutdownErr
      = some (.remoteError "boom")) ∧
    (({ name := "mock",
        endp := { initErr := none, shutdownErr := some (.remoteError "boom") },
        conn := newPipeConn "mock" } : endpoint).Shutdown).2.2 = none := by decide

/-- C4 (amended): `endpoint.Shutdown` first forwards to the inner endpoint's
`Shutdown` and only afterwards closes the bridge, and it always returns nil,
silently discarding any error the inner `Shutdown` produced. -/
theorem Shutdown_order_and_result (e : endpoint) :
    e.Shutdown = ([.innerShutdown e.endp.shutdownErr, .bridgeClose],
                  { e with conn := (e.conn.Close).1 }, none) := rfl

/-- C9: when the configured module list is empty or unset (Go's csv reader
returns no record and `io.EOF`), `loadSharedObjects` succeeds and registers
nothing, and a first `Init` succeeds leaving the registry unchanged. -/
theorem loadSharedObjects_empty_list (env : PluginEnv) (reg : Registry)
    (h : env.readRecord = ([], some .eof)) :
    loadSharedObjects env reg = (reg, none) ∧
    Init env { initDone := false, endpointCtors := reg } =
      ({ initDone := true, endpointCtors := reg }, none) := by
  refine ⟨?_, ?_⟩
  · simp [loadSharedObjects, h]
  · simp [Init, loadSharedObjects, h]

/-- The environment of a process with `CSI_PLUGINS` unset. -/
def emptyPluginEnv : PluginEnv :=
  { readRecord := ([], some .eof),
    openPlugin := fun p => .error (.pluginOpenFailed p) }

/-- Witness for C9 on the empty environment and empty registry. -/
theorem loadSharedObjects_empty_list_witness :
    loadSharedObjects emptyPluginEnv [] = ([], none) ∧
    Init emptyPluginEnv { initDone := false, endpointCtors := [] } =
      ({ initDone := true, endpointCtors := [] }, none) :=
  loadSharedObjects_empty_list emptyPluginEnv [] rfl

/-- An environment whose single configured plugin fails to load. -/
def failingEnv : PluginEnv :=
  { readRecord := (["bad.so"], none),
    openPlugin := fun p => .error (.pluginOpenFailed p) }

/-- C3: the discovery body runs at most once, but the claimed result-sharing
fails on the code: when the single execution of `loadSharedObjects` fails,
the first `Init` returns that error while the second `Init` returns nil (the
once-guard skips the body and the zero-valued local `err` is returned), not
the recorded failure. -/
theorem Init_second_call_returns_nil_after_failure :
    (Init failingEnv { initDone := false, endpointCtors := [] }).2
      = some (.pluginOpenFailed "bad.so") ∧
    (Init failingEnv
        (Init failingEnv { initDone := false, endpointCtors := [] }).1).2 = none ∧
    (Init failingEnv
        (Init failingEnv { initDone := false, endpointCtors := [] }).1).1.initDone
      = true :=
  ⟨rfl, rfl, rfl⟩

/-- C1: every RPC-forwarding method of the facade dials the bridge to obtain
the client for its owning service group and invokes the identically-named
remote method with the untouched request, returning the remote response and
error exactly as received (one invocation, no transformation, no retry, no
caching); and when the dial fails with `err` the method returns
`(none, some err)` with no partial response. -/
theorem forwarding_methods_exact {Req Resp : Type} (e : endpoint)
    (grpcDial : String → Except GoError GrpcClientConn) :
    (∀ err, grpcDial e.name = .error err →
      ∀ (rc : Remote ControllerClient Req Resp)
        (ri : Remote IdentityClient Req Resp)
        (rn : Remote NodeClient Req Resp) (req : Req),
        e.CreateVolume grpcDial rc req = (none, some err) ∧
        e.DeleteVolume grpcDial rc req = (none, some err) ∧
        e.ControllerPublishVolume grpcDial rc req = (none, some err) ∧
        e.ControllerUnpublishVolume grpcDial rc req = (none, some err) ∧
        e.ValidateVolumeCapabilities grpcDial rc req = (none, some err) ∧
        e.ListVolumes grpcDial rc req = (none, some err) ∧
        e.GetCapacity grpcDial rc req = (none, some err) ∧
        e.ControllerGetCapabilities grpcDial rc req = (none, some err) ∧
        e.GetSupportedVersions grpcDial ri req = (none, some err) ∧
        e.GetPluginInfo grpcDial ri req = (none, some err) ∧
        e.NodePublishVolume grpcDial rn req = (none, some err) ∧
        e.NodeUnpublishVolume grpcDial rn req = (none, some err) ∧
        e.GetNodeID grpcDial rn req = (none, some err) ∧
        e.ProbeNode grpcDial rn req = (none, some err) ∧
        e.NodeGetCapabilities grpcDial rn req = (none, some err)) ∧
    (∀ c, grpcDial e.name = .ok c →
      ∀ (rc : Remote ControllerClient Req Resp)
        (ri : Remote IdentityClient Req Resp)
        (rn : Remote NodeClient Req Resp) (req : Req),
        e.CreateVolume grpcDial rc req = rc (csi.NewControllerClient c) req ∧
        e.DeleteVolume grpcDial rc req = rc (csi.NewControllerClient c) req ∧
        e.ControllerPublishVolume grpcDial rc req = rc (csi.NewControllerClient c) req ∧
        e.ControllerUnpublishVolume grpcDial rc req = rc (csi.NewControllerClient c) req ∧
        e.ValidateVolumeCapabilities grpcDial rc req = rc (csi.NewControllerClient c) req ∧
        e.ListVolumes grpcDial rc req = rc (csi.NewControllerClient c) req ∧
        e.GetCapacity grpcDial rc req = rc (csi.NewControllerClient c) req ∧
        e.ControllerGetCapabilities grpcDial rc req = rc (csi.NewControllerClient c) req ∧
        e.GetSupportedVersions grpcDial ri req = ri (csi.NewIdentityClient c) req ∧
        e.GetPluginInfo grpcDial ri req = ri (csi.NewIdentityClient c) req ∧
        e.NodePublishVolume grpcDial rn req = rn (csi.NewNodeClient c) req ∧
        e.NodeUnpublishVolume grpcDial rn req = rn (csi.NewNodeClient c) req ∧
        e.GetNodeID grpcDial rn req = rn (csi.NewNodeClient c) req ∧
        e.ProbeNode grpcDial rn req = rn (csi.NewNodeClient c) req ∧
        e.NodeGetCapabilities grpcDial rn req = rn (csi.NewNodeClient c) req) := by
  constructor
  · intro err h rc ri rn req
    simp [endpoint.CreateVolume, endpoint.DeleteVolume,
      endpoint.ControllerPublishVolume, endpoint.ControllerUnpublishVolume,
      endpoint.ValidateVolumeCapabilities, endpoint.ListVolumes,
      endpoint.GetCapacity, endpoint.ControllerGetCapabilities,
      endpoint.GetSupportedVersions, endpoint.GetPluginInfo,
      endpoint.NodePublishVolume, endpoint.NodeUnpublishVolume,
      endpoint.GetNodeID, endpoint.ProbeNode, endpoint.NodeGetCapabilities,
      endpoint.dialController, endpoint.dialIdentity, endpoint.dialNode,
      endpoint.dial, h]
  · intro c h rc ri rn req
    simp [endpoint.CreateVolume, endpoint.DeleteVolume,
      endpoint.ControllerPublishVolume, endpoint.ControllerUnpublishVolume,
      endpoint.ValidateVolumeCapabilities, endpoint.ListVolumes,
      endpoint.GetCapacity, endpoint.ControllerGetCapabilities,
      endpoint.GetSupportedVersions, endpoint.GetPluginInfo,
      endpoint.NodePublishVolume, endpoint.NodeUnpublishVolume,
      endpoint.GetNodeID, endpoint.ProbeNode, endpoint.NodeGetCapabilities,
      endpoint.dialController, endpoint.dialIdentity, endpoint.dialNode,
      endpoint.dial, h]

/-- A facade bound to the mock provider, used to instantiate the theorems. -/
def mockFacade : endpoint :=
  { name := "mock", endp := { initErr := none, shutdownErr := none },
    conn := newPipeConn "mock" }

/-- Witness for C1: a failing dial surfaces as the call's error with no
response, and a successful dial returns exactly the remote method's result. -/
theorem forwarding_methods_exact_witness :
    mockFacade.ListVolumes (fun _ => .error (.remoteError "df"))
        (fun _ (r : Nat) => ((some (r + 1) : Option Nat), (none : Option GoError))) 3
      = (none, some (.remoteError "df")) ∧
    mockFacade.ListVolumes (fun t => .ok ⟨t⟩)
        (fun _ (r : Nat) => ((some (r + 1) : Option Nat), (none : Option GoError))) 3
      = (some 4, none) := by
  constructor
  · exact ((forwarding_methods_exact mockFacade
      (fun _ => .error (.remoteError "df"))).1 (.remoteError "df") rfl
      (fun _ r => (some (r + 1), none)) (fun _ r => (some (r + 1), none))
      (fun _ r => (some (r + 1), none)) 3).2.2.2.2.2.1
  · exact ((forwarding_methods_exact mockFacade (fun t => .ok ⟨t⟩)).2
      ⟨"mock"⟩ rfl
      (fun _ r => (some (r + 1), none)) (fun _ r => (some (r + 1), none))
      (fun _ r => (some (r + 1), none)) 3).2.2.2.2.2.1

/-- `find?` returns the unique element of the list satisfying the predicate. -/
theorem find?_mem_unique (ctors : Registry)
    (pred : String × ProviderVal → Bool) (kv : String × ProviderVal)
    (hmem : kv ∈ ctors) (hkv : pred kv = true)
    (huniq : ∀ kv' ∈ ctors, pred kv' = true → kv' = kv) :
    ctors.find? pred = some kv := by
  induction ctors with
  | nil => cases hmem
  | cons hd tl ih =>
    by_cases hp : pred hd = true
    · have hhd : hd = kv := huniq hd (List.mem_cons_self hd tl) hp
      rw [List.find?_cons_of_pos _ hp, hhd]
    · have hne : hd ≠ kv := fun he => hp (he ▸ hkv)
      have hmem' : kv ∈ tl := by
        rcases List.mem_cons.mp hmem with h | h
        · exact absurd h.symm hne
        · exact h
      rw [List.find?_cons_of_neg _ (by simpa using hp)]
      exact ih hmem' (fun kv' h' hp' => huniq kv' (List.mem_cons_of_mem _ h') hp')

/-- C7: provider lookup is case-insensitive: when exactly one registered entry
`(k, v)` matches `name` under `strings.EqualFold`, looking up `name` or any
case-variant `name'` of it resolves to that same entry (and `New` with an
initialized registry defers to that lookup); and when no registered key
matches case-insensitively, the lookup fails with
`errInvalidEndpointProvider`. -/
theorem New_lookup_case_insensitive
    (ctors : Registry) (name name' k : String) (v : ProviderVal)
    (hmem : (k, v) ∈ ctors)
    (hk : eqFold k name = true)
    (huniq : ∀ kv ∈ ctors, eqFold kv.1 name = true → kv = (k, v))
    (hname' : eqFold name' name = true) :
    ctors.find? (fun kv => eqFold kv.1 name) = some (k, v) ∧
    ctors.find? (fun kv => eqFold kv.1 name') = some (k, v) ∧
    newService ctors name' = newService ctors name ∧
    (∀ env, New env { initDone := true, endpointCtors := ctors } name' =
      ({ initDone := true, endpointCtors := ctors }, newService ctors name')) ∧
    (∀ (cs : Registry) (nm : String), (∀ kv ∈ cs, eqFold kv.1 nm = false) →
      newService cs nm = .error .invalidEndpointProvider) := by
  have hfold : name'.data.map Char.toLower = name.data.map Char.toLower :=
    eq_of_beq hname'
  have hpred : (fun kv : String × ProviderVal => eqFold kv.1 name')
      = (fun kv => eqFold kv.1 name) := by
    funext kv
    simp [eqFold, hfold]
  have hfind : ctors.find? (fun kv => eqFold kv.1 name) = some (k, v) :=
    find?_mem_unique ctors _ (k, v) hmem hk huniq
  refine ⟨hfind, ?_, ?_, ?_, ?_⟩
  · rw [hpred]
    exact hfind
  · unfold newService
    rw [hpred]
  · intro env
    simp [New, Init]
  · intro cs nm hno
    have hnone : cs.find? (fun kv => eqFold kv.1 nm) = none :=
      List.find?_eq_none.mpr (fun x hx => by simp [hno x hx])
    simp [newService, hnone]

/-- The registry holding the mock provider. -/
def mockRegistry : Registry :=
  [("mock", .endp { initErr := none, shutdownErr := none })]

/-- Witness for C7: on the registry holding `"mock"`, the names `"MOCK"` and
`"mock"` resolve to the same entry, and a registry with no case-insensitive
match yields `errInvalidEndpointProvider`. -/
theorem New_lookup_case_insensitive_witness :
    mockRegistry.find? (fun kv => eqFold kv.1 "MOCK")
      = some ("mock", .endp { initErr := none, shutdownErr := none }) ∧
    mockRegistry.find? (fun kv => eqFold kv.1 "mock")
      = some ("mock", .endp { initErr := none, shutdownErr := none }) ∧
    newService mockRegistry "mock" = newService mockRegistry "MOCK" ∧
    (∀ env, New env { initDone := true, endpointCtors := mockRegistry } "mock" =
      ({ initDone := true, endpointCtors := mockRegistry },
        newService mockRegistry "mock")) ∧
    (∀ (cs : Registry) (nm : String), (∀ kv ∈ cs, eqFold kv.1 nm = false) →
      newService cs nm = .error .invalidEndpointProvider) :=
  New_lookup_case_insensitive mockRegistry "MOCK" "mock" "mock"
    (.endp { initErr := none, shutdownErr := none })
    (by decide) (by decide) (by decide) (by decide)

/-- Taking the `i`-th element to the front is a permutation. -/
theorem perm_get_cons_eraseIdx (l : List Nat) (i : Nat) (h : i < l.length) :
    l.Perm (l.get ⟨i, h⟩ :: l.eraseIdx i) := by
  rw [List.get_eq_getElem]
  exact (List.perm_cons_erase (List.getElem_mem h)).trans
    ((List.erase_getElem h).cons _)

theorem idRange_length (s n : Nat) : (idRange s n).length = n := by
  induction n generalizing s with
  | zero => rfl
  | succ n ih => simp [idRange, ih]

/-- Effect of `n` consecutive dials on an open bridge: the queue grows by the
fresh pipe ids `nextId, ..., nextId+n-1` in order, and the dialers receive the
client halves of exactly those pipes. -/
theorem dialN_spec (n : Nat) : ∀ p : pipeConn, p.closed = false →
    (dialN p n).1.pending = p.pending ++ idRange p.nextId n ∧
    (dialN p n).1.nextId = p.nextId + n ∧
    (dialN p n).1.closed = false ∧
    (dialN p n).2 = (idRange p.nextId n).map (fun i => Stream.mk i false) := by
  induction n with
  | zero =>
    intro p hc
    simp [dialN, idRange, hc]
  | succ n ih =>
    intro p hc
    have hone : p.Dial "" 0 =
        ({ p with nextId := p.nextId + 1, pending := p.pending ++ [p.nextId] },
          ⟨p.nextId, false⟩, none) := by
      simp [pipeConn.Dial, hc]
    obtain ⟨ih1, ih2, ih3, ih4⟩ :=
      ih { p with nextId := p.nextId + 1, pending := p.pending ++ [p.nextId] } hc
    refine ⟨?_, ?_, ?_, ?_⟩
    · show (dialN (p.Dial "" 0).1 n).1.pending = _
      rw [hone]
      simp only [ih1]
      simp [idRange, List.append_assoc]
    · show (dialN (p.Dial "" 0).1 n).1.nextId = _
      rw [hone]
      simp only [ih2]
      omega
    · show (dialN (p.Dial "" 0).1 n).1.closed = false
      rw [hone]
      exact ih3
    · show (p.Dial "" 0).2.1 :: (dialN (p.Dial "" 0).1 n).2 = _
      rw [hone]
      simp only [ih4]
      simp [idRange]

/-- Effect of draining an open bridge with as many accepts as queued halves:
every accept succeeds, the accepted pipe ids are a permutation of the queue,
and the queue ends empty with the bridge still open. -/
theorem acceptN_spec (n : Nat) : ∀ (p : pipeConn) (sels : Nat → Nat),
    p.closed = false → p.pending.length = n →
    ∃ ids : List Nat,
      ids.Perm p.pending ∧
      (acceptN p sels n).2 = ids.map (fun id => some (AcceptResult.conn ⟨id, true⟩)) ∧
      (acceptN p sels n).1.pending = [] ∧
      (acceptN p sels n).1.closed = false ∧
      (acceptN p sels n).1.nextId = p.nextId := by
  induction n with
  | zero =>
    intro p sels hc hl
    have hp : p.pending = [] := List.length_eq_zero.mp hl
    exact ⟨[], by simp [hp], by simp [acceptN], by simp [acceptN, hp],
      by simp [acceptN, hc], by simp [acceptN]⟩
  | succ n ih =>
    intro p sels hc hl
    match hpend : p.pending with
    | [] => rw [hpend] at hl; cases hl
    | x :: xs =>
      have hi : sels 0 % (x :: xs).length < (x :: xs).length :=
        Nat.mod_lt _ (Nat.succ_pos xs.length)
      have hacc : p.Accept (sels 0) =
          ({ p with pending := (x :: xs).eraseIdx (sels 0 % (x :: xs).length) },
            some (.conn ⟨(x :: xs).get ⟨sels 0 % (x :: xs).length, hi⟩, true⟩)) := by
        simp [pipeConn.Accept, hpend]
      have hlen1 :
          ({ p with pending := (x :: xs).eraseIdx (sels 0 % (x :: xs).length) }
            : pipeConn).pending.length = n := by
        show ((x :: xs).eraseIdx (sels 0 % (x :: xs).length)).length = n
        rw [List.length_eraseIdx _ _, if_pos hi]
        rw [hpend] at hl
        omega
      obtain ⟨ids, hperm, heq, hpend', hclosed', hnext'⟩ :=
        ih { p with pending := (x :: xs).eraseIdx (sels 0 % (x :: xs).length) }
          (fun k => sels (k + 1)) hc hlen1
      refine ⟨(x :: xs).get ⟨sels 0 % (x :: xs).length, hi⟩ :: ids, ?_, ?_, ?_, ?_, ?_⟩
      · exact ((hperm.cons _).trans
          (perm_get_cons_eraseIdx (x :: xs) (sels 0 % (x :: xs).length) hi).symm)
      · show (p.Accept (sels 0)).2 :: (acceptN (p.Accept (sels 0)).1 _ n).2 = _
        rw [hacc]
        simp only [heq]
        simp
      · show (acceptN (p.Accept (sels 0)).1 _ n).1.pending = []
        rw [hacc]
        exact hpend'
      · show (acceptN (p.Accept (sels 0)).1 _ n).1.closed = false
        rw [hacc]
        exact hclosed'
      · show (acceptN (p.Accept (sels 0)).1 _ n).1.nextId = p.nextId
        rw [hacc]
        exact hnext'

/-- C2: starting from an open bridge with an empty queue, a sequence of `N`
dials followed by `N` accepts (under any scheduling of the handoffs) has all
`N` accepts succeed; the accepted streams are exactly the peer halves of the
streams the dials returned, each matched once (a permutation, so no dial
yields more than one accepted stream); a further accept finds nothing; and on
any pipe, data written on one half is readable on the peer half and only
there, in both directions. -/
theorem dial_accept_matching
    (p0 : pipeConn) (N : Nat) (sels : Nat → Nat)
    (p1 p2 : pipeConn) (ds : List Stream) (rs : List (Option AcceptResult))
    (hc : p0.closed = false) (hq : p0.pending = [])
    (hd : dialN p0 N = (p1, ds))
    (ha : acceptN p1 sels N = (p2, rs)) :
    rs.length = N ∧
    (∃ accepted : List Stream,
        rs = accepted.map (fun s => some (AcceptResult.conn s)) ∧
        accepted.Perm (ds.map Stream.peer)) ∧
    (∀ k, (p2.Accept k).2 = none) ∧
    (∀ (s : Stream) (net : PipeNet) (data : List Nat),
        (net.write s data).readable s.peer = net.readable s.peer ++ data ∧
        (net.write s data).readable s = net.readable s ∧
        s.peer.peer = s) := by
  obtain ⟨hd1, hd2, hd3, hd4⟩ := dialN_spec N p0 hc
  rw [hd] at hd1 hd2 hd3 hd4
  dsimp only at hd1 hd2 hd3 hd4
  simp only [hq, List.nil_append] at hd1
  have hlen : p1.pending.length = N := by
    rw [hd1, idRange_length]
  obtain ⟨ids, hperm, heq, hpend2, hclosed2, _⟩ := acceptN_spec N p1 sels hd3 hlen
  rw [ha] at heq hpend2 hclosed2
  dsimp only at heq hpend2 hclosed2
  have hperm' : ids.Perm (idRange p0.nextId N) := hd1 ▸ hperm
  refine ⟨?_, ⟨ids.map (fun id => Stream.mk id true), ?_, ?_⟩, ?_, ?_⟩
  · rw [heq, List.length_map, hperm'.length_eq, idRange_length]
  · rw [heq, List.map_map]
    rfl
  · rw [hd4, List.map_map]
    have : (Stream.peer ∘ fun i => Stream.mk i false) = fun i => Stream.mk i true := by
      funext i
      simp [Stream.peer]
    rw [this]
    exact hperm'.map _
  · intro k
    simp [pipeConn.Accept, hpend2, hclosed2]
  · intro s net data
    rcases s with ⟨id, side⟩
    refine ⟨?_, ?_, ?_⟩
    · simp [PipeNet.write, PipeNet.readable, Stream.peer]
    · simp [PipeNet.write, PipeNet.readable, Stream.peer]
    · simp [Stream.peer]

/-- Witness for C2: two dials then two accepts on a fresh bridge named
`"mock"`, with the scheduler always handing over the first blocked sender. -/
theorem dial_accept_matching_witness :
    ([some (AcceptResult.conn ⟨0, true⟩), some (AcceptResult.conn ⟨1, true⟩)]
        : List (Option AcceptResult)).length = 2 ∧
    (∃ accepted : List Stream,
        ([some (AcceptResult.conn ⟨0, true⟩), some (AcceptResult.conn ⟨1, true⟩)]
            : List (Option AcceptResult))
          = accepted.map (fun s => some (AcceptResult.conn s)) ∧
        accepted.Perm (([⟨0, false⟩, ⟨1, false⟩] : List Stream).map Stream.peer)) ∧
    (∀ k, (({ addr := ⟨"mock"⟩, pending := [], nextId := 2, closed := false,
              sendPanicked := false } : pipeConn).Accept k).2 = none) ∧
    (∀ (s : Stream) (net : PipeNet) (data : List Nat),
        (net.write s data).readable s.peer = net.readable s.peer ++ data ∧
        (net.write s data).readable s = net.readable s ∧
        s.peer.peer = s) :=
  dial_accept_matching (newPipeConn "mock") 2 (fun _ => 0)
    { addr := ⟨"mock"⟩, pending := [0, 1], nextId := 2, closed := false,
      sendPanicked := false }
    { addr := ⟨"mock"⟩, pending := [], nextId := 2, closed := false,
      sendPanicked := false }
    [⟨0, false⟩, ⟨1, false⟩]
    [some (.conn ⟨0, true⟩), some (.conn ⟨1, true⟩)]
    rfl rfl (by decide) (by decide)

/-- A successful split reconstructs the input around the separator. -/
theorem splitScheme_sound : ∀ (l a b : List Char),
    splitScheme l = some (a, b) → l = a ++ [':', '/', '/'] ++ b := by
  intro l
  induction l with
  | nil =>
    intro a b h
    cases h
  | cons c cs ih =>
    intro a b h
    by_cases hcond : c = ':' ∧ cs.take 2 = ['/', '/']
    · rw [splitScheme, if_pos hcond] at h
      obtain ⟨ha, hb⟩ : [] = a ∧ cs.drop 2 = b := by simpa using h
      subst ha
      subst hb
      conv_lhs => rw [hcond.1, ← List.take_append_drop 2 cs, hcond.2]
      simp
    · rw [splitScheme, if_neg hcond] at h
      obtain ⟨pr, hpr, hf⟩ := Option.map_eq_some'.mp h
      obtain ⟨ha, hb⟩ : c :: pr.1 = a ∧ pr.2 = b := by
        simpa using hf
      subst ha
      subst hb
      simp [ih pr.1 pr.2 (by simpa using hpr)]

/-- The split succeeds on any input decomposed around `://` by a colon-free
prefix. -/
theorem splitScheme_complete : ∀ (scheme rest : List Char), ':' ∉ scheme →
    splitScheme (scheme ++ [':', '/', '/'] ++ rest) = some (scheme, rest) := by
  intro scheme
  induction scheme with
  | nil =>
    intro rest _
    simp [splitScheme]
  | cons c cs ih =>
    intro rest h
    rw [List.mem_cons, not_or] at h
    obtain ⟨h1, h2⟩ := h
    simp only [List.cons_append]
    rw [splitScheme, if_neg (fun hand => h1 (hand.1.symm))]
    rw [ih rest h2]
    rfl

/-- No scheme token contains a colon. -/
theorem schemeTokens_colon_free : ∀ t ∈ schemeTokens, ':' ∉ t := by decide

/-- A string whose lowercasing is a scheme token contains no colon. -/
theorem scheme_no_colon {scheme : List Char}
    (htok : schemeTokens.contains (lowerStr scheme) = true) : ':' ∉ scheme := by
  intro hmem
  have hlow : ':' ∈ lowerStr scheme := by
    have := List.mem_map_of_mem Char.toLower hmem
    rwa [show Char.toLower ':' = ':' from by decide] at this
  have hmemT : lowerStr scheme ∈ schemeTokens := by
    simpa using htok
  exact schemeTokens_colon_free _ hmemT hlow

/-- C8 (amended): `ParseProtoAddr` succeeds exactly on the strings
`scheme://rest` whose scheme lowercases to one of the twelve accepted tokens
and whose rest is nonempty and newline-free (Go's regexp `.` does not match a
newline), returning the scheme exactly as written together with the rest;
every other string fails with `ErrInvalidCSIEndpoint`, and the parser is a
total function (it never panics). -/
theorem ParseProtoAddr_spec (s : String) :
    (∃ scheme rest : List Char,
        s.data = scheme ++ [':', '/', '/'] ++ rest ∧
        schemeTokens.contains (lowerStr scheme) = true ∧
        rest ≠ [] ∧ rest.contains '\n' = false ∧
        ParseProtoAddr s = .ok (⟨scheme⟩, ⟨rest⟩)) ∨
    ((∀ scheme rest : List Char,
        s.data = scheme ++ [':', '/', '/'] ++ rest →
        schemeTokens.contains (lowerStr scheme) = true →
        rest ≠ [] → rest.contains '\n' = false → False) ∧
      ParseProtoAddr s = .error .invalidCSIEndpoint) := by
  cases hm : addrRXMatch s.data with
  | some pr =>
    obtain ⟨a, b⟩ := pr
    left
    have hm0 := hm
    unfold addrRXMatch at hm
    cases hs : splitScheme s.data with
    | none =>
      rw [hs] at hm
      cases hm
    | some pr' =>
      obtain ⟨a', b'⟩ := pr'
      rw [hs] at hm
      dsimp only at hm
      by_cases hcond : schemeTokens.contains (lowerStr a') = true ∧ b' ≠ [] ∧
          b'.contains '\n' = false
      · rw [if_pos hcond] at hm
        obtain ⟨ha, hb⟩ : a' = a ∧ b' = b := by simpa using hm
        subst ha
        subst hb
        refine ⟨a', b', splitScheme_sound _ _ _ hs, hcond.1, hcond.2.1,
          hcond.2.2, ?_⟩
        unfold ParseProtoAddr
        rw [hm0]
      · rw [if_neg hcond] at hm
        cases hm
  | none =>
    right
    constructor
    · intro scheme rest heq htok hne hnl
      have hsplit : splitScheme s.data = some (scheme, rest) := by
        rw [heq]
        exact splitScheme_complete scheme rest (scheme_no_colon htok)
      have hsome : addrRXMatch s.data = some (scheme, rest) := by
        unfold addrRXMatch
        rw [hsplit]
        dsimp only
        rw [if_pos ⟨htok, hne, hnl⟩]
      rw [hm] at hsome
      cases hsome
    · unfold ParseProtoAddr
      rw [hm]

/-- C8 counterexample: `"tcp://a\nb"` has the claimed form — scheme `tcp` in
the accepted set and a nonempty rest — yet the parser rejects it, because the
regexp's `.` does not match the newline in the rest. -/
theorem ParseProtoAddr_newline_counterexample :
    "tcp://a\nb".data = "tcp".data ++ [':', '/', '/'] ++ "a\nb".data ∧
    schemeTokens.contains (lowerStr "tcp".data) = true ∧
    "a\nb".data ≠ [] ∧
    ParseProtoAddr "tcp://a\nb" = .error .invalidCSIEndpoint := by
  refine ⟨by decide, by decide, by decide, ?_⟩
  rfl

/-- Witness for C8 at the well-formed input `"tcp://x"`. -/
theorem ParseProtoAddr_spec_witness :
    (∃ scheme rest : List Char,
        "tcp://x".data = scheme ++ [':', '/', '/'] ++ rest ∧
        schemeTokens.contains (lowerStr scheme) = true ∧
        rest ≠ [] ∧ rest.contains '\n' = false ∧
        ParseProtoAddr "tcp://x" = .ok (⟨scheme⟩, ⟨rest⟩)) ∨
    ((∀ scheme rest : List Char,
        "tcp://x".data = scheme ++ [':', '/', '/'] ++ rest →
        schemeTokens.contains (lowerStr scheme) = true →
        rest ≠ [] → rest.contains '\n' = false → False) ∧
      ParseProtoAddr "tcp://x" = .error .invalidCSIEndpoint) :=
  ParseProtoAddr_spec "tcp://x"

end GoCSI
